import Mathlib

/- Shallow embedding of libqca7k (libqca7k.c / libqca7k.h), a QCA7000-class
   SPI driver.  Host model fixed throughout: little-endian byte order,
   32-bit C `int`, 64-bit `size_t`.  uint8 values are Nat taken mod 256,
   uint16 values Nat taken mod 65536.  Bus I/O (the SPI shim) is modelled
   as an explicit event trace; register reads take their two wire bytes as
   explicit oracle arguments. -/

namespace Qca7k

/-- qca7k_state_t from libqca7k.h. -/
inductive Qstate where
  | OK
  | BAD_SIGNATURE
  | FRAME_OVERFLOW
  | WRITE_BUFFER_INSUFFICIENT
  | NULL_RECV_BUFFER
  | EMPTY_READ_BUFFER
  | INTERNAL_ERROR
  | READING_SOF
  | READING_FL
  | READING_RESERVED
  | READING_FRAME
  | READING_EOF
deriving DecidableEq

/-- One event on the SPI bus: transaction begin/end, a written byte, a read byte. -/
inductive BusEv where
  | start
  | stop
  | wr (b : Nat)
  | rd (b : Nat)
deriving DecidableEq

def QCA7K_REG_BFR_SIZE : Nat := 0x0100
def QCA7K_REG_WRBUF_SPC_AVA : Nat := 0x0200
def QCA7K_REG_RDBUF_BYTE_AVA : Nat := 0x0300
def QCA7K_REG_SPI_CONFIG : Nat := 0x0400
def QCA7K_REG_INTR_CAUSE : Nat := 0x0C00
def QCA7K_REG_INTR_ENABLE : Nat := 0x0D00
def QCA7K_REG_SIGNATURE : Nat := 0x1A00

def QCA7K_FRAME_MAX : Nat := 1522
def QCA7K_FRAME_MIN : Nat := 60

def QCA7K_SOF : Nat := 0xAA
def QCA7K_RESERVED : Nat := 0x00
def QCA7K_EOF : Nat := 0x55

/-- Bit width of size_t on the modelled host. -/
def SIZE_BITS : Nat := 64

/-- __u16: repeats a byte to form a symmetric uint16. -/
def u16double (v : Nat) : Nat := (((v % 256) <<< 8) ||| (v % 256)) % 65536

/-- The command word computed by qca7k_write_command.  The source writes
    `in ? ((reg << 2) >> 2) : 0` where `reg` is uint16: with 32-bit int
    promotion the shifts do not truncate, so `(reg <<< 2) >>> 2` is applied
    without an intermediate mod; the result of the assignment back to a
    uint16 is taken mod 65536. -/
def write_command_word (rw intl : Bool) (reg : Nat) : Nat :=
  let res := if intl then (((reg % 65536) <<< 2) >>> 2) % 65536 else 0
  (res ||| ((if rw then 1 else 0) <<< 15) ||| ((if intl then 1 else 0) <<< 14)) % 65536

/-- qca7k_write_register on a little-endian host: the union bytes are
    swapped before writing, so the high byte goes on the wire first. -/
def regWrites (v : Nat) : List BusEv :=
  [BusEv.wr ((v % 65536) >>> 8), BusEv.wr (v % 256)]

/-- qca7k_write_command: the command word is emitted via qca7k_write_register. -/
def cmdWrites (rw intl : Bool) (reg : Nat) : List BusEv :=
  regWrites (write_command_word rw intl reg)

/-- qca7k_read_register on a little-endian host: the first wire byte is the
    low byte of the result. -/
def read_register (w0 w1 : Nat) : Nat := (w0 % 256) ||| ((w1 % 256) <<< 8)

/-- `size < QCA7K_FRAME_MIN ? QCA7K_FRAME_MIN : size` from qca7k_send. -/
def size_to_write (size : Nat) : Nat :=
  if size < QCA7K_FRAME_MIN then QCA7K_FRAME_MIN else size

/-- `4 + 2 + 2 + size_to_write + 2` from qca7k_send. -/
def size_needed (size : Nat) : Nat := 4 + 2 + 2 + size_to_write size + 2

/-- qca7k_send.  `data` is the caller's payload (bytes addressed by index),
    `size` its length argument, and `a0 a1` the two wire bytes the chip
    answers for the write-space-available register read.  Returns the final
    state together with the complete bus trace.  Note: the source computes
    the little-endian frame-length union into a local but never writes it to
    the bus; the trace below mirrors that (no length-field bytes between the
    SOF and reserved writes). -/
def qca7k_send (data : List Nat) (size : Nat) (a0 a1 : Nat) : Qstate × List BusEv :=
  if size > QCA7K_FRAME_MAX then (Qstate.FRAME_OVERFLOW, [])
  else
    let checkT : List BusEv :=
      [BusEv.start] ++ cmdWrites true true QCA7K_REG_WRBUF_SPC_AVA
        ++ [BusEv.rd (a0 % 256), BusEv.rd (a1 % 256), BusEv.stop]
    if read_register a0 a1 < size_needed size then
      (Qstate.WRITE_BUFFER_INSUFFICIENT, checkT)
    else
      (Qstate.OK, checkT
        ++ [BusEv.start] ++ cmdWrites false true QCA7K_REG_BFR_SIZE
        ++ regWrites (size_needed size % 65536) ++ [BusEv.stop]
        ++ [BusEv.start] ++ cmdWrites false false 0
        ++ regWrites (u16double QCA7K_SOF) ++ regWrites (u16double QCA7K_SOF)
        ++ regWrites (u16double QCA7K_RESERVED)
        ++ (List.range (size_to_write size)).map
             (fun i => BusEv.wr (if i < size then (data.getD i 0) % 256 else 0))
        ++ regWrites (u16double QCA7K_EOF) ++ [BusEv.stop])

/-- Collect the bytes written on the bus, in order. -/
def wrBytes : List BusEv → List Nat
  | [] => []
  | BusEv.wr b :: t => b :: wrBytes t
  | _ :: t => wrBytes t

/-- The receive context: the module-level globals of libqca7k.c.
    `st` is _g_state, `origin` is _g_recv_buf_origin (`none` models NULL,
    `some a` the address `a`), `ptr` is _g_recv_buf_ptr as an address,
    `bytesLeft` is _g_state_bytes_left (a size_t value), `expected` is
    _g_expected_byte and `fl` is _g_fl. -/
structure RecvCtx where
  st : Qstate
  origin : Option Nat
  ptr : Nat
  bytesLeft : Nat
  expected : Nat
  fl : Nat
deriving DecidableEq

/-- qca7k_reset_state_machine.  A NULL argument is `none`; the ptr address
    for NULL is modelled as 0 (it is never dereferenced in that case). -/
def resetSM (d : Option Nat) : RecvCtx :=
  { st := Qstate.READING_SOF
    origin := d
    ptr := d.getD 0
    bytesLeft := 4
    expected := QCA7K_SOF
    fl := 0 }

/-- The initial values of the globals at program start. -/
def initCtx : RecvCtx := resetSM none

/-- size_t decrement with wraparound: `_g_state_bytes_left --`. -/
def decWrap (n : Nat) : Nat := (n + (2 ^ SIZE_BITS - 1)) % 2 ^ SIZE_BITS

/-- The tail of the per-byte loop body: `_g_state_bytes_left --` followed by
    the end-of-stage transition switch.  Returns the context, the buffer
    writes made for this byte, the retry flag and the done flag. -/
def stepAccept (c : RecvCtx) (ws : List (Nat × Nat)) :
    RecvCtx × List (Nat × Nat) × Bool × Bool :=
  let c1 : RecvCtx := { c with bytesLeft := decWrap c.bytesLeft }
  if c1.bytesLeft = 0 then
    match c1.st with
    | Qstate.READING_SOF =>
        ({ c1 with st := Qstate.READING_FL, bytesLeft := 2 }, ws, false, false)
    | Qstate.READING_FL =>
        ({ c1 with
            st := Qstate.READING_RESERVED
            bytesLeft := 2
            expected := QCA7K_RESERVED }, ws, false, false)
    | Qstate.READING_RESERVED =>
        ({ c1 with
            st := Qstate.READING_FRAME
            ptr := c1.origin.getD 0
            bytesLeft := c1.fl }, ws, false, false)
    | Qstate.READING_FRAME =>
        ({ c1 with
            st := Qstate.READING_EOF
            bytesLeft := 2
            expected := QCA7K_EOF }, ws, false, false)
    | Qstate.READING_EOF =>
        ({ resetSM c1.origin with st := Qstate.OK }, ws, false, true)
    | _ => (c1, ws, false, false)
  else (c1, ws, false, false)

/-- The sentinel-state branch of the loop body (READING_SOF,
    READING_RESERVED, READING_EOF).  On mismatch the source calls
    qca7k_reset_state_machine first and only then tests
    `_g_state != QCA7K_READING_SOF`; the test is therefore made on the
    post-reset state, exactly as in the source. -/
def sentinelStep (c : RecvCtx) (v : Nat) : RecvCtx × List (Nat × Nat) × Bool × Bool :=
  if c.expected ≠ v % 256 then
    let c1 := resetSM c.origin
    if c1.st ≠ Qstate.READING_SOF then (c1, [], true, false)
    else (c1, [], false, false)
  else stepAccept c []

/-- One iteration of the qca7k_recv for-loop on byte `v`. -/
def recvByte (c : RecvCtx) (v : Nat) : RecvCtx × List (Nat × Nat) × Bool × Bool :=
  match c.st with
  | Qstate.READING_SOF | Qstate.READING_RESERVED | Qstate.READING_EOF =>
      sentinelStep c v
  | Qstate.READING_FL =>
      stepAccept { c with fl := ((c.fl <<< 8) ||| (v % 256)) % 65536 } []
  | Qstate.READING_FRAME =>
      stepAccept { c with ptr := c.ptr + 1 } [(c.ptr, v % 256)]
  | _ =>
      ({ resetSM none with st := Qstate.INTERNAL_ERROR }, [], false, true)

/-- The qca7k_recv for-loop over the available bytes.  Returns the final
    context, the buffer writes, and the number of input bytes consumed from
    the SPI (a retried byte is not re-read).  If recvByte asks for a retry
    the same byte is examined again; after any reset the state is
    READING_SOF, which never sets the retry flag, so one re-examination
    suffices. -/
def recvLoop : RecvCtx → List Nat → RecvCtx × List (Nat × Nat) × Nat
  | c, [] => (c, [], 0)
  | c, v :: rest =>
      match recvByte c v with
      | (c1, w1, retry, d1) =>
        if d1 then (c1, w1, 1)
        else if retry then
          match recvByte c1 v with
          | (c2, w2, _, d2) =>
            if d2 then (c2, w1 ++ w2, 1)
            else
              match recvLoop c2 rest with
              | (c3, w3, n3) => (c3, w1 ++ w2 ++ w3, 1 + n3)
        else
          match recvLoop c1 rest with
          | (c2, w2, n2) => (c2, w1 ++ w2, 1 + n2)

/-- Entry normalization of qca7k_recv: reset when there is no prior buffer,
    the buffer changed, or the last state was terminal. -/
def recvEntry (c : RecvCtx) (d : Nat) : RecvCtx :=
  if c.origin = none ∨ c.origin ≠ some d ∨ c.st = Qstate.OK
      ∨ c.st = Qstate.INTERNAL_ERROR then
    resetSM (some d)
  else c

/-- The SPI read stream actually consumed: `ba` bytes as delivered by the
    shim (the supplied bytes, zero if the oracle list is short), each a
    uint8. -/
def spiStream (input : List Nat) (ba : Nat) : List Nat :=
  ((input ++ List.replicate ba 0).take ba).map (fun b => b % 256)

/-- Everything qca7k_recv does after the entry normalization: the
    bytes-available register read, the early EMPTY_READ_BUFFER return, and
    the external-read scan loop.  `r0 r1` are the wire bytes answered for
    the read-buffer-byte-available register; `input` is the byte stream the
    shim delivers.  Returns (result, context, buffer writes, bus trace). -/
def recvCore (c : RecvCtx) (r0 r1 : Nat) (input : List Nat) :
    Qstate × RecvCtx × List (Nat × Nat) × List BusEv :=
  let checkT : List BusEv :=
    [BusEv.start] ++ cmdWrites true true QCA7K_REG_RDBUF_BYTE_AVA
      ++ [BusEv.rd (r0 % 256), BusEv.rd (r1 % 256), BusEv.stop]
  let ba := read_register r0 r1
  if ba = 0 then (Qstate.EMPTY_READ_BUFFER, c, [], checkT)
  else
    let s := spiStream input ba
    match recvLoop c s with
    | (c1, ws, n) =>
      (c1.st, c1, ws,
       checkT ++ [BusEv.start] ++ cmdWrites true false 0
         ++ (s.take n).map BusEv.rd ++ [BusEv.stop])

/-- qca7k_recv.  A NULL data pointer is `none`. -/
def qca7k_recv (c : RecvCtx) (data : Option Nat) (r0 r1 : Nat) (input : List Nat) :
    Qstate × RecvCtx × List (Nat × Nat) × List BusEv :=
  match data with
  | none => (Qstate.NULL_RECV_BUFFER, c, [], [])
  | some d => recvCore (recvEntry c d) r0 r1 input

/-- qca7k_interrupts_set: one internal write of the mask to the enable register. -/
def qca7k_interrupts_set (mask : Nat) : List BusEv :=
  [BusEv.start] ++ cmdWrites false true QCA7K_REG_INTR_ENABLE
    ++ regWrites mask ++ [BusEv.stop]

/-- qca7k_interrupts_disable_all: set the mask to 0. -/
def qca7k_interrupts_disable_all : List BusEv := qca7k_interrupts_set 0

/-- qca7k_interrupt_reasons.  `w0 w1` are the wire bytes answered for the
    interrupt-cause register read.  Returns the value and the bus trace. -/
def qca7k_interrupt_reasons (w0 w1 : Nat) : Nat × List BusEv :=
  let reasons := read_register w0 w1
  (reasons,
    qca7k_interrupts_disable_all
      ++ [BusEv.start] ++ cmdWrites true true QCA7K_REG_INTR_CAUSE
      ++ [BusEv.rd (w0 % 256), BusEv.rd (w1 % 256), BusEv.stop]
      ++ [BusEv.start] ++ cmdWrites false true QCA7K_REG_INTR_CAUSE
      ++ regWrites reasons ++ [BusEv.stop])

/-- Successive qca7k_recv calls against the same destination buffer
    (address 0), threading the context and collecting the stored bytes.
    Each list entry supplies the two wire bytes of the bytes-available
    register read and the SPI byte stream for that call. -/
def recvSeq (c : RecvCtx) : List (Nat × Nat × List Nat) → RecvCtx × List (Nat × Nat)
  | [] => (c, [])
  | (r0, r1, input) :: rest =>
      match qca7k_recv c (some 0) r0 r1 input with
      | (_, c1, ws, _) =>
        match recvSeq c1 rest with
        | (c2, ws2) => (c2, ws ++ ws2)

/- ------------------------------------------------------------------ -/
/- Helper lemmas -/
/- ------------------------------------------------------------------ -/

lemma stepAccept_retry_false (c : RecvCtx) (ws : List (Nat × Nat)) :
    (stepAccept c ws).2.2.1 = false := by
  simp only [stepAccept]
  split
  · split <;> rfl
  · rfl

lemma sentinelStep_retry_false (c : RecvCtx) (v : Nat) :
    (sentinelStep c v).2.2.1 = false := by
  simp only [sentinelStep]
  split
  · simp [resetSM]
  · exact stepAccept_retry_false _ _

/-- The retry flag of the per-byte loop body is never set: the source tests
    `_g_state != QCA7K_READING_SOF` only after qca7k_reset_state_machine has
    already stored QCA7K_READING_SOF into _g_state. -/
lemma recvByte_retry_false (c : RecvCtx) (v : Nat) :
    (recvByte c v).2.2.1 = false := by
  rcases c with ⟨st, o, p, bl, e, fl⟩
  cases st
  case READING_SOF =>
    simp only [recvByte]
    exact sentinelStep_retry_false _ _
  case READING_RESERVED =>
    simp only [recvByte]
    exact sentinelStep_retry_false _ _
  case READING_EOF =>
    simp only [recvByte]
    exact sentinelStep_retry_false _ _
  case READING_FL =>
    simp only [recvByte]
    exact stepAccept_retry_false _ _
  case READING_FRAME =>
    simp only [recvByte]
    exact stepAccept_retry_false _ _
  all_goals rfl

lemma size_needed_eq_max (size : Nat) :
    size_needed size = 4 + 2 + 2 + max size QCA7K_FRAME_MIN + 2 := by
  unfold size_needed size_to_write QCA7K_FRAME_MIN
  split <;> omega

/-- The external-write frame bytes emitted for a 1-byte payload: all bus
    writes of the send trace except the 8 command/register-setup bytes (two
    command bytes of the space check, two command plus two register bytes of
    the buffer-size write, two command bytes of the external write). -/
def c4_stream : List Nat := (wrBytes (qca7k_send [1] 1 0xD0 0x07).2).drop 8

/-- The byte stream of the C3 refutation: a frame header whose length field
    decodes to 1523 followed by 1523 payload bytes, split over one 8-byte
    call and six 300-byte calls. -/
def c3_calls : List (Nat × Nat × List Nat) :=
  (8, 0, [0xAA, 0xAA, 0xAA, 0xAA, 0x05, 0xF3, 0x00, 0x00])
    :: List.replicate 6 (44, 1, List.replicate 300 0x11)

/- ------------------------------------------------------------------ -/
/- Claim theorems -/
/- ------------------------------------------------------------------ -/

/-- C1: evaluation of the transmit path for a 10-byte payload with ample
    write space (register answer 0x07D0 = 2000).  The buffer-size register is
    primed with 70, but the streamed envelope is SOF(4) | RESERVED(2) |
    60 payload bytes | EOF(2): the source computes the little-endian length
    field into a local union and never writes it, so no `3C 00` length bytes
    appear between the SOF and reserved bytes, contrary to the claimed wire
    image. -/
theorem c1_send_omits_length_field :
    qca7k_send [1, 2, 3, 4, 5, 6, 7, 8, 9, 10] 10 0xD0 0x07 =
      (Qstate.OK,
       [BusEv.start, BusEv.wr 0xC2, BusEv.wr 0x00, BusEv.rd 0xD0, BusEv.rd 0x07,
        BusEv.stop,
        BusEv.start, BusEv.wr 0x41, BusEv.wr 0x00, BusEv.wr 0x00, BusEv.wr 70,
        BusEv.stop,
        BusEv.start, BusEv.wr 0x00, BusEv.wr 0x00,
        BusEv.wr 0xAA, BusEv.wr 0xAA, BusEv.wr 0xAA, BusEv.wr 0xAA,
        BusEv.wr 0x00, BusEv.wr 0x00,
        BusEv.wr 1, BusEv.wr 2, BusEv.wr 3, BusEv.wr 4, BusEv.wr 5,
        BusEv.wr 6, BusEv.wr 7, BusEv.wr 8, BusEv.wr 9, BusEv.wr 10]
        ++ List.map BusEv.wr (List.replicate 50 0)
        ++ [BusEv.wr 0x55, BusEv.wr 0x55, BusEv.stop]) := by
  decide

/-- C2: the claimed re-examination of a mismatched sentinel byte never
    happens.  First conjunct: the loop body's retry flag is always false,
    because the source tests `_g_state != QCA7K_READING_SOF` only after the
    reset has already stored QCA7K_READING_SOF.  Second conjunct: after a
    SOF and a length field, the byte 0xAA that mismatches the reserved
    sentinel leaves a completely fresh context (4 SOF bytes still expected)
    with all 7 input bytes consumed — the 0xAA was discarded, not
    re-examined as the first byte of a new SOF stage (that would leave
    bytesLeft = 3). -/
theorem c2_mismatched_byte_is_dropped :
    (∀ c v, (recvByte c v).2.2.1 = false) ∧
    recvLoop (resetSM (some 0)) [0xAA, 0xAA, 0xAA, 0xAA, 0x00, 0x3C, 0xAA] =
      (resetSM (some 0), [], 7) :=
  ⟨recvByte_retry_false, by decide⟩

set_option maxRecDepth 100000 in
/-- C3: the write cursor does advance past origin + QCA7K_FRAME_MAX.  A
    stream whose length field decodes to 1523 (> 1522) makes the receiver
    store a payload byte at offset 1522 from the destination buffer origin:
    READING_FRAME copies bytes with no bound check against QCA7K_FRAME_MAX. -/
theorem c3_cursor_exceeds_frame_max :
    (((recvSeq initCtx c3_calls).2).map Prod.fst).contains QCA7K_FRAME_MAX = true := by
  decide

/-- C4: the round trip fails.  Feeding the 68 frame bytes that qca7k_send
    emits for the payload [1] (c4_stream) into a fresh receive state machine
    ends in READING_SOF with no payload byte stored, not in SUCCESS with a
    60-byte zero-padded payload: the stream lacks the length field, so the
    receiver parses the reserved bytes as a zero length and then loses sync
    on the first payload byte. -/
theorem c4_roundtrip_fails :
    c4_stream.length = 68 ∧
    (qca7k_recv initCtx (some 0) 68 0 c4_stream).1 = Qstate.READING_SOF ∧
    (qca7k_recv initCtx (some 0) 68 0 c4_stream).2.2.1 = [] := by
  decide

/-- C5: the command word does not force bit 15 to rw.  For rw = false,
    in = true and reg = 0x8000 the produced word is 0xC000, whose bit 15 is
    set although rw is false: with 32-bit int promotion `(reg << 2) >> 2`
    is the identity on uint16 values, so bits 14 and 15 of reg leak into
    the command word. -/
theorem c5_command_word_leaks_reg_bits :
    write_command_word false true 0x8000 = 0xC000 ∧
    Nat.testBit (write_command_word false true 0x8000) 15 = true := by
  decide

/-- C6: admission control of qca7k_send.  If size is within QCA7K_FRAME_MAX
    but the write-space-available register reports less than
    4 + 2 + 2 + max(size, QCA7K_FRAME_MIN) + 2, the call returns
    WRITE_BUFFER_INSUFFICIENT and the whole bus trace is the space-check
    command write and register read — no buffer-size write and no frame
    byte.  If size exceeds QCA7K_FRAME_MAX the call returns FRAME_OVERFLOW
    with an empty bus trace. -/
theorem c6_send_admission_control (data : List Nat) (size a0 a1 : Nat) :
    (size ≤ QCA7K_FRAME_MAX →
      read_register a0 a1 < 4 + 2 + 2 + max size QCA7K_FRAME_MIN + 2 →
      qca7k_send data size a0 a1 =
        (Qstate.WRITE_BUFFER_INSUFFICIENT,
         [BusEv.start] ++ cmdWrites true true QCA7K_REG_WRBUF_SPC_AVA
           ++ [BusEv.rd (a0 % 256), BusEv.rd (a1 % 256), BusEv.stop])) ∧
    (QCA7K_FRAME_MAX < size →
      qca7k_send data size a0 a1 = (Qstate.FRAME_OVERFLOW, [])) := by
  constructor
  · intro h1 h2
    rw [← size_needed_eq_max] at h2
    unfold qca7k_send
    rw [if_neg (by omega), if_pos h2]
  · intro h
    unfold qca7k_send
    rw [if_pos h]

/-- C6 witness: the theorem applied at size 0 with a zero space report, and
    at size 1523 for the overflow branch. -/
theorem c6_send_admission_control_witness :
    qca7k_send [] 0 0 0 =
      (Qstate.WRITE_BUFFER_INSUFFICIENT,
       [BusEv.start] ++ cmdWrites true true QCA7K_REG_WRBUF_SPC_AVA
         ++ [BusEv.rd (0 % 256), BusEv.rd (0 % 256), BusEv.stop]) ∧
    qca7k_send [] 1523 0 0 = (Qstate.FRAME_OVERFLOW, []) :=
  ⟨(c6_send_admission_control [] 0 0 0).1 (by decide) (by decide),
   (c6_send_admission_control [] 1523 0 0).2 (by decide)⟩

/-- C7: entry behavior of qca7k_recv for a non-NULL buffer d.  The call is
    the post-entry body run on recvEntry c d; if the context has no prior
    buffer, the buffer differs, or the last state was OK or INTERNAL_ERROR,
    recvEntry yields a fresh READING_SOF context bound to d (cursor at the
    origin, 4 SOF bytes expected, accumulated length zero); otherwise it
    keeps the context unchanged. -/
theorem c7_entry_reset (c : RecvCtx) (d r0 r1 : Nat) (input : List Nat) :
    qca7k_recv c (some d) r0 r1 input = recvCore (recvEntry c d) r0 r1 input ∧
    ((c.origin = none ∨ c.origin ≠ some d ∨ c.st = Qstate.OK
        ∨ c.st = Qstate.INTERNAL_ERROR) →
      recvEntry c d =
        { st := Qstate.READING_SOF
          origin := some d
          ptr := d
          bytesLeft := 4
          expected := QCA7K_SOF
          fl := 0 }) ∧
    (¬(c.origin = none ∨ c.origin ≠ some d ∨ c.st = Qstate.OK
        ∨ c.st = Qstate.INTERNAL_ERROR) →
      recvEntry c d = c) := by
  refine ⟨rfl, ?_, ?_⟩
  · intro h
    unfold recvEntry
    rw [if_pos h]
    rfl
  · intro h
    unfold recvEntry
    rw [if_neg h]

/-- A context mid-way through the length stage of a frame bound to buffer 5,
    used to witness the keep branch of the entry behavior. -/
def midFrameCtx : RecvCtx :=
  { st := Qstate.READING_FL
    origin := some 5
    ptr := 5
    bytesLeft := 2
    expected := QCA7K_SOF
    fl := 0 }

/-- C7 witness: a fresh context (origin none) is reset and bound to the new
    buffer; an in-progress context with the same buffer is kept. -/
theorem c7_entry_reset_witness :
    recvEntry initCtx 5 =
      { st := Qstate.READING_SOF
        origin := some 5
        ptr := 5
        bytesLeft := 4
        expected := QCA7K_SOF
        fl := 0 } ∧
    recvEntry midFrameCtx 5 = midFrameCtx :=
  ⟨(c7_entry_reset initCtx 5 0 0 []).2.1 (by decide),
   (c7_entry_reset midFrameCtx 5 0 0 []).2.2 (by decide)⟩

/-- C8: qca7k_interrupt_reasons performs exactly: one transaction clearing
    the interrupt-enable mask to 0 (command word 0x4D00), one transaction
    reading the interrupt-cause register (command word 0xCC00, two byte
    reads), and one transaction writing the identical value just read back
    to the interrupt-cause register (command word 0x4C00); the value is
    returned and the enable register is never written again. -/
theorem c8_interrupt_ack_protocol (w0 w1 : Nat) :
    qca7k_interrupt_reasons w0 w1 =
      (read_register w0 w1,
       [BusEv.start, BusEv.wr 0x4D, BusEv.wr 0x00, BusEv.wr 0x00, BusEv.wr 0x00,
        BusEv.stop,
        BusEv.start, BusEv.wr 0xCC, BusEv.wr 0x00, BusEv.rd (w0 % 256),
        BusEv.rd (w1 % 256), BusEv.stop,
        BusEv.start, BusEv.wr 0x4C, BusEv.wr 0x00]
        ++ regWrites (read_register w0 w1) ++ [BusEv.stop]) := by
  rfl

/-- C9: qca7k_recv with a NULL data pointer returns NULL_RECV_BUFFER,
    performs no bus I/O, stores nothing, and leaves the receive context
    unchanged. -/
theorem c9_null_buffer_no_io (c : RecvCtx) (r0 r1 : Nat) (input : List Nat) :
    qca7k_recv c none r0 r1 input = (Qstate.NULL_RECV_BUFFER, c, [], []) :=
  rfl

/-- C10: completing the reserved stage with an accumulated length of 0
    enters READING_FRAME with a stage counter of 0 and no re-check; the next
    byte is then stored at the buffer origin and the size_t counter is
    decremented from 0, wrapping to 2 ^ SIZE_BITS - 1, so the machine stays
    in READING_FRAME (it does not move to READING_EOF) and expects that many
    further payload bytes. -/
theorem c10_zero_length_wraps_counter (c : RecvCtx) (v : Nat) :
    (c.st = Qstate.READING_RESERVED → c.bytesLeft = 1 → c.fl = 0 →
      c.expected = v % 256 →
      recvByte c v =
        ({ c with
            st := Qstate.READING_FRAME
            ptr := c.origin.getD 0
            bytesLeft := 0 }, [], false, false)) ∧
    (c.st = Qstate.READING_FRAME → c.bytesLeft = 0 →
      recvByte c v =
        ({ c with ptr := c.ptr + 1, bytesLeft := 2 ^ SIZE_BITS - 1 },
         [(c.ptr, v % 256)], false, false) ∧
      (recvByte c v).1.st ≠ Qstate.READING_EOF) := by
  rcases c with ⟨st, o, p, bl, e, fl⟩
  constructor
  · intro hst hbl hfl hexp
    dsimp only at hst hbl hfl hexp
    subst hst hbl hfl hexp
    simp only [recvByte, sentinelStep, stepAccept]
    norm_num [decWrap, SIZE_BITS]
  · intro hst hbl
    dsimp only at hst hbl
    subst hst hbl
    simp only [recvByte, stepAccept]
    norm_num [decWrap, SIZE_BITS]
    decide

/-- C10 witness: the theorem applied to the concrete context reached after
    SOF, a zero length field and the first reserved byte, and to the
    underflow context in READING_FRAME with a zero counter. -/
theorem c10_zero_length_wraps_counter_witness :
    recvByte
        { st := Qstate.READING_RESERVED
          origin := some 0
          ptr := 0
          bytesLeft := 1
          expected := 0
          fl := 0 } 0 =
      ({ st := Qstate.READING_FRAME
         origin := some 0
         ptr := 0
         bytesLeft := 0
         expected := 0
         fl := 0 }, [], false, false) ∧
    recvByte
        { st := Qstate.READING_FRAME
          origin := some 0
          ptr := 0
          bytesLeft := 0
          expected := 0
          fl := 0 } 7 =
      ({ st := Qstate.READING_FRAME
         origin := some 0
         ptr := 1
         bytesLeft := 2 ^ SIZE_BITS - 1
         expected := 0
         fl := 0 }, [(0, 7)], false, false) :=
  ⟨(c10_zero_length_wraps_counter
      { st := Qstate.READING_RESERVED, origin := some 0, ptr := 0, bytesLeft := 1
        expected := 0, fl := 0 } 0).1 rfl rfl rfl rfl,
   ((c10_zero_length_wraps_counter
      { st := Qstate.READING_FRAME, origin := some 0, ptr := 0, bytesLeft := 0
        expected := 0, fl := 0 } 7).2 rfl rfl).1⟩

end Qca7k
